import Mathlib

/-!
Verification of the dataset-management layer of the cerana ZFS bindings.

The Lean definitions below are a shallow embedding of the Go sources:
`dataset.go` (the Dataset entity, normalization and lifecycle operations),
`zfs/destroy.go` (the native destroy command) and
`providers/zfs/mount.go` (the Mount RPC handler).  Go `uint64` values are
modeled as `Nat` (the embedded code performs no arithmetic, so no overflow
reduction is needed), Go maps used only through lookup are modeled as
lookup functions, fallible Go calls return `Except`/`Option`, and a Go
runtime panic is modeled by a dedicated constructor of `GoVal`.
-/

namespace Cerana

/-- Dataset type discriminator strings, from the constant block of `dataset.go`. -/
def DatasetFilesystem : String := "filesystem"

/-- Dataset type discriminator for snapshots. -/
def DatasetSnapshot : String := "snapshot"

/-- Dataset type discriminator for volumes. -/
def DatasetVolume : String := "volume"

/-- Modelled from the spec: the native object-set type discriminators
(`dmuZFS`, `dmuZVOL` in the sources) are defined outside the provided files;
the spec only requires the filesystem and volume discriminators to be
distinct numeric codes, which is all the development relies on. -/
def dmuZFS : Nat := 2

/-- Modelled from the spec: the zvol (volume) type discriminator, distinct
from `dmuZFS`. -/
def dmuZVOL : Nat := 3

/-- Embedding of `dmuObjsetStats` (`dataset.go`).  The Go field `Type` is
renamed `Typ` because `Type` is reserved in Lean. -/
structure DmuObjsetStats where
  CreationTxg : Nat
  Guid : Nat
  Inconsistent : Bool
  IsSnapshot : Bool
  NumClones : Nat
  Origin : String
  Typ : String
deriving DecidableEq, Repr

/-- A uint64-valued native property (`propUint64` in `dataset.go`). -/
structure PropUint64 where
  Value : Nat
deriving DecidableEq, Repr

/-- A uint64-valued native property with provenance source
(`propUint64WithSource`). -/
structure PropUint64WithSource where
  Source : String
  Value : Nat
deriving DecidableEq, Repr

/-- A string-valued native property (`propString`). -/
structure PropString where
  Value : String
deriving DecidableEq, Repr

/-- A string-valued native property with provenance source
(`propStringWithSource`). -/
structure PropStringWithSource where
  Source : String
  Value : String
deriving DecidableEq, Repr

/-- The clones property (`propClones`): the Go value is a map from clone
name to a presence marker, consumed only through its key set, so it is
modeled as the list of keys. -/
structure PropClones where
  Value : List String
deriving DecidableEq, Repr

/-- Embedding of `dsProperties` (`dataset.go`), restricted to the fields the
modeled operations read (`dsToDataset` and `Destroy`); the remaining fields
of the Go struct are never consulted by the embedded code.  The Go field
`Type` is renamed `Typ`. -/
structure DsProperties where
  Available : PropUint64
  Clones : PropClones
  Compression : PropStringWithSource
  LogicalUsed : PropUint64
  Mountpoint : PropStringWithSource
  Origin : PropString
  Quota : PropUint64WithSource
  Typ : PropUint64
  Used : PropUint64
  UsedByDataset : PropUint64
  Volsize : PropUint64
  Written : PropUint64
deriving DecidableEq, Repr

/-- Embedding of the raw decoded dataset record `ds` (`dataset.go`). -/
structure Ds where
  DMUObjsetStats : DmuObjsetStats
  Name : String
  Properties : DsProperties
deriving DecidableEq, Repr

/-- Embedding of the application-facing `Dataset` struct (`dataset.go`).
The Go field `Type` is renamed `Typ`. -/
structure Dataset where
  Name : String
  Origin : String
  Used : Nat
  Avail : Nat
  Mountpoint : String
  Compression : String
  Typ : String
  Written : Nat
  Volsize : Nat
  Usedbydataset : Nat
  Logicalused : Nat
  Quota : Nat
  ds : Ds
deriving DecidableEq, Repr

/-- The type discriminator computed by `dsToDataset`: snapshot when the
objset stats say so, else volume when the numeric type property is the zvol
code, else filesystem. -/
def dsTypeOf (r : Ds) : String :=
  if r.DMUObjsetStats.IsSnapshot then DatasetSnapshot
  else if r.Properties.Typ.Value = dmuZVOL then DatasetVolume
  else DatasetFilesystem

/-- The compression string computed by `dsToDataset`: the native value,
defaulting to "off" when empty. -/
def compressionOf (r : Ds) : String :=
  if r.Properties.Compression.Value = "" then "off" else r.Properties.Compression.Value

/-- The mountpoint computed by `dsToDataset`: when the native mountpoint is
empty and the derived type is not snapshot, "/" prepended to the name,
otherwise the native value unchanged. -/
def mountpointOf (r : Ds) : String :=
  if r.Properties.Mountpoint.Value = "" ∧ dsTypeOf r ≠ DatasetSnapshot
  then "/" ++ r.Name else r.Properties.Mountpoint.Value

/-- Embedding of `dsToDataset` (`dataset.go`).  Note that the source
populates the `Written` field from the `available` native property
(`Written: in.Properties.Available.Value`), not from the `written`
property. -/
def dsToDataset (r : Ds) : Dataset :=
  { Name := r.Name
    Origin := r.Properties.Origin.Value
    Used := r.Properties.Used.Value
    Avail := r.Properties.Available.Value
    Mountpoint := mountpointOf r
    Compression := compressionOf r
    Typ := dsTypeOf r
    Written := r.Properties.Available.Value
    Volsize := r.Properties.Volsize.Value
    Usedbydataset := r.Properties.UsedByDataset.Value
    Logicalused := r.Properties.LogicalUsed.Value
    Quota := r.Properties.Quota.Value
    ds := r }

/-- Objset stats with all fields zeroed, used to build concrete records. -/
def zeroStats : DmuObjsetStats :=
  { CreationTxg := 0, Guid := 0, Inconsistent := false, IsSnapshot := false
    NumClones := 0, Origin := "", Typ := "" }

/-- Properties with all fields zeroed or empty, used to build concrete
records. -/
def baseProps : DsProperties :=
  { Available := ⟨0⟩, Clones := ⟨[]⟩, Compression := ⟨"", ""⟩
    LogicalUsed := ⟨0⟩, Mountpoint := ⟨"", ""⟩, Origin := ⟨""⟩
    Quota := ⟨"", 0⟩, Typ := ⟨0⟩, Used := ⟨0⟩, UsedByDataset := ⟨0⟩
    Volsize := ⟨0⟩, Written := ⟨0⟩ }

/-- A concrete filesystem record named pool/fs with empty native
mountpoint. -/
def exFs : Ds :=
  { DMUObjsetStats := zeroStats, Name := "pool/fs", Properties := baseProps }

/-- A concrete snapshot record whose native mountpoint is nonempty. -/
def exSnapMp : Ds :=
  { DMUObjsetStats := { zeroStats with IsSnapshot := true }
    Name := "pool/fs@s1"
    Properties := { baseProps with Mountpoint := ⟨"", "/weird"⟩ } }

/-- Errors produced by `GetDataset`: an error from the underlying listing,
or the cardinality error built when the listing does not hold exactly one
record; the Go message is "expected 1 dataset, got n" (via a mismatched
format verb), so the error carries the count. -/
inductive GetErr
  | listError (msg : String)
  | expectedOne (n : Nat)
deriving DecidableEq, Repr

/-- Embedding of `GetDataset` composed with `getDatasets` (`dataset.go`),
parameterized by the outcome of the underlying `list` call for the name:
the raw records are normalized with `dsToDataset`, then the result must
hold exactly one dataset, which is returned; any other count is the
cardinality error. -/
def getDatasetFrom (listing : Except String (List Ds)) : Except GetErr Dataset :=
  match listing with
  | Except.error e => Except.error (GetErr.listError e)
  | Except.ok dss =>
    match dss.map dsToDataset with
    | [d] => Except.ok d
    | other => Except.error (GetErr.expectedOne other.length)

/-- A Go function outcome that distinguishes a runtime panic from an
ordinary returned error. -/
inductive GoVal (α : Type) where
  | ok (a : α)
  | err (e : String)
  | panicked
deriving DecidableEq, Repr

/-- Embedding of `Dataset.Children` (`dataset.go`), parameterized by the
outcome of `getDatasets(d.Name, "all", true, depth)`: the source returns
the Go slice expression `datasets[1:]`, which panics when the listing is
empty (for a slice of length 0 the implied bounds 1 and 0 are out of
range) and otherwise drops the first element. -/
def childrenFrom (listing : Except String (List Dataset)) : GoVal (List Dataset) :=
  match listing with
  | Except.error e => GoVal.err e
  | Except.ok datasets =>
    if 1 ≤ datasets.length then GoVal.ok (datasets.drop 1) else GoVal.panicked

/-- The native snapshot invocation issued by `Dataset.Snapshot`
(`dataset.go`): a pool-scoping argument, a list of snapshot names, and a
property map (always empty at this call site, modeled as an association
list). -/
structure SnapshotCall where
  zpool : String
  snaps : List String
  props : List (String × String)
deriving DecidableEq, Repr

/-- The first `/`-separated segment of a name: the value of
`strings.Split(s, "/")[0]` in Go, i.e. the longest prefix of the string
not containing the separator. -/
def firstSegment (s : String) : String :=
  (s.toList.takeWhile (fun c => c ≠ '/')).asString

/-- Embedding of `Dataset.Snapshot` (`dataset.go`) for a dataset named
`dsName`: the pool argument is the first path segment of the name, the
single snapshot name is `dsName@name`, and the property map is empty.  The
`recursive` parameter is accepted by the source but does not appear in the
native call it issues. -/
def datasetSnapshot (dsName name : String) (recursive : Bool) : SnapshotCall :=
  { zpool := firstSegment dsName
    snaps := [dsName ++ "@" ++ name]
    props := [] }

/-- The native rollback invocation issued by `Dataset.Rollback`
(`dataset.go`): the call site passes only the dataset name. -/
structure RollbackCall where
  name : String
deriving DecidableEq, Repr

/-- Embedding of `Dataset.Rollback` (`dataset.go`): the source calls
`rollback(d.Name)` and marks handling of the `destroyMoreRecent` option as
a TODO, so the option does not reach the native call. -/
def datasetRollback (dsName : String) (destroyMoreRecent : Bool) : RollbackCall :=
  { name := dsName }

/-- A concrete record for the C7 divergence: the native `available`
property is 5 while the native `written` property is 7. -/
def exC7 : Ds :=
  { DMUObjsetStats := zeroStats, Name := "pool/fs"
    Properties := { baseProps with Available := ⟨5⟩, Written := ⟨7⟩ } }

/-- C5: `GetDataset` returns a dataset exactly when the listing yields
exactly one record — the normalization of that record; a zero-record
listing yields the cardinality error carrying count 0 (the not-found case)
and a listing of two or more yields the cardinality error carrying that
count (the ambiguous case); a listing failure is passed through.  In no
case is an arbitrary record of a non-singleton listing returned. -/
theorem c5_getDataset_cardinality :
    (∀ d : Ds, getDatasetFrom (Except.ok [d]) = Except.ok (dsToDataset d)) ∧
    getDatasetFrom (Except.ok []) = Except.error (GetErr.expectedOne 0) ∧
    (∀ (d1 d2 : Ds) (rest : List Ds),
      getDatasetFrom (Except.ok (d1 :: d2 :: rest)) =
        Except.error (GetErr.expectedOne (rest.length + 2))) ∧
    (∀ e : String, getDatasetFrom (Except.error e) =
        Except.error (GetErr.listError e)) := by
  refine ⟨fun d => rfl, rfl, fun d1 d2 rest => ?_, fun e => rfl⟩
  simp [getDatasetFrom]

/-- C6 counterexample: a snapshot record whose native mountpoint is the
nonempty string "/weird" normalizes to mountpoint "/weird", so the
mountpoint of a snapshot does not stay empty regardless of the native
value. -/
theorem c6_snapshot_mountpoint_counterexample :
    (dsToDataset exSnapMp).Typ = DatasetSnapshot ∧
    (dsToDataset exSnapMp).Mountpoint = "/weird" ∧
    (dsToDataset exSnapMp).Mountpoint ≠ "" :=
  ⟨rfl, rfl, by decide⟩

/-- C6 (amended): when the native mountpoint is empty and the derived type
is not snapshot, the normalized mountpoint is "/" followed by the name;
for a snapshot the native mountpoint is passed through unchanged (so it
stays empty exactly when the native value is empty). -/
theorem c6_mountpoint_derivation (r : Ds) :
    (r.Properties.Mountpoint.Value = "" → (dsToDataset r).Typ ≠ DatasetSnapshot →
      (dsToDataset r).Mountpoint = "/" ++ r.Name) ∧
    ((dsToDataset r).Typ = DatasetSnapshot →
      (dsToDataset r).Mountpoint = r.Properties.Mountpoint.Value) := by
  constructor
  · intro hmp hty
    show mountpointOf r = "/" ++ r.Name
    unfold mountpointOf
    exact if_pos ⟨hmp, hty⟩
  · intro hty
    show mountpointOf r = r.Properties.Mountpoint.Value
    unfold mountpointOf
    apply if_neg
    intro hcond
    exact hcond.2 hty

/-- Witness for C6 at a concrete record: the filesystem record named
pool/fs with empty native mountpoint normalizes to mountpoint /pool/fs. -/
theorem c6_mountpoint_derivation_witness :
    (dsToDataset exFs).Mountpoint = "/" ++ exFs.Name :=
  (c6_mountpoint_derivation exFs).1 rfl (by decide)

/-- C7: the space-accounting fields of the normalized dataset come from
the corresponding native properties for used, available, logicalused,
volsize and usedbydataset, but the source populates `Written` from the
`available` property; at the concrete record with available 5 and written
7 the normalized `Written` is 5, diverging from the native `written`
property. -/
theorem c7_written_field_from_available :
    (∀ r : Ds,
      (dsToDataset r).Used = r.Properties.Used.Value ∧
      (dsToDataset r).Avail = r.Properties.Available.Value ∧
      (dsToDataset r).Logicalused = r.Properties.LogicalUsed.Value ∧
      (dsToDataset r).Volsize = r.Properties.Volsize.Value ∧
      (dsToDataset r).Usedbydataset = r.Properties.UsedByDataset.Value ∧
      (dsToDataset r).Written = r.Properties.Available.Value) ∧
    (dsToDataset exC7).Written = 5 ∧
    exC7.Properties.Written.Value = 7 ∧
    (dsToDataset exC7).Written ≠ exC7.Properties.Written.Value :=
  ⟨fun r => ⟨rfl, rfl, rfl, rfl, rfl, rfl⟩, rfl, rfl, by decide⟩

/-- C9: when the underlying recursive listing succeeds with the empty
sequence, `Children` panics — it returns neither an empty result nor an
error value; when the listing is nonempty it returns everything after the
first element, and a listing error is returned as an error. -/
theorem c9_children_empty_listing_panics :
    childrenFrom (Except.ok []) = GoVal.panicked ∧
    (∀ e : String, childrenFrom (Except.ok []) ≠ GoVal.err e) ∧
    childrenFrom (Except.ok []) ≠ GoVal.ok ([] : List Dataset) ∧
    (∀ (d : Dataset) (rest : List Dataset),
      childrenFrom (Except.ok (d :: rest)) = GoVal.ok rest) ∧
    (∀ e : String, childrenFrom (Except.error e) = GoVal.err e) := by
  refine ⟨rfl, ?_, ?_, ?_, fun e => rfl⟩
  · intro e h
    exact nomatch h
  · intro h
    exact nomatch h
  · intro d rest
    show (if 1 ≤ (d :: rest).length then GoVal.ok ((d :: rest).drop 1)
          else GoVal.panicked) = GoVal.ok rest
    rw [if_pos (by simp)]
    rfl

/-- C2 counterexample: on the dataset tank/data, Snapshot("weekly", true)
issues exactly the same native call as Snapshot("weekly", false), so the
recursive flag is not passed through to the native call. -/
theorem c2_snapshot_recursive_counterexample :
    datasetSnapshot "tank/data" "weekly" true =
      datasetSnapshot "tank/data" "weekly" false := rfl

/-- C2 (amended): the fully qualified snapshot name issued to the native
call is the dataset name followed by "@" and the given name, and the
pool-scoping argument is the first path segment of the dataset name — at
tank/data the call carries ["tank/data@weekly"] scoped by "tank" — but the
recursive flag is dropped: the native call is identical for both values of
the flag. -/
theorem c2_snapshot_call_shape :
    (∀ (dsName name : String) (recursive : Bool),
      (datasetSnapshot dsName name recursive).snaps = [dsName ++ "@" ++ name] ∧
      (datasetSnapshot dsName name recursive).zpool = firstSegment dsName ∧
      datasetSnapshot dsName name recursive = datasetSnapshot dsName name false) ∧
    (datasetSnapshot "tank/data" "weekly" false).zpool = "tank" ∧
    (datasetSnapshot "tank/data" "weekly" false).snaps = ["tank/data@weekly"] :=
  ⟨fun dsName name recursive => ⟨rfl, rfl, rfl⟩, rfl, rfl⟩

/-- C3: the `destroyMoreRecent` option of `Rollback` never reaches the
native call — the rollback invocation carries only the dataset name, so
the call issued for true equals the call issued for false, in particular
on the concrete snapshot tank/data@snap. -/
theorem c3_rollback_option_ignored :
    datasetRollback "tank/data@snap" true = datasetRollback "tank/data@snap" false ∧
    (∀ (dsName : String) (b : Bool),
      datasetRollback dsName b = datasetRollback dsName false) :=
  ⟨rfl, fun dsName b => rfl⟩

/-- A value stored in the opaque create-property map (Go
`map[string]interface` values at this boundary are opaque caller
entries plus the uint64 volsize the code inserts). -/
inductive PropVal
  | u64 (n : Nat)
  | str (s : String)
deriving DecidableEq, Repr

/-- The contents of a non-nil Go property map, modeled as a lookup
function. -/
def PropMap : Type := String → Option PropVal

/-- Assignment `m[k] = v` on a (non-nil) Go map: the key now maps to the
new value and every other key is unchanged. -/
def mapAssign (m : PropMap) (k : String) (v : PropVal) : PropMap :=
  fun q => if q = k then some v else m q

/-- The native create invocation issued by `createDataset` (`dataset.go`);
`none` for the properties models a nil Go map. -/
structure CreateCall where
  name : String
  createType : Nat
  properties : Option PropMap

/-- Embedding of `createDataset` (`dataset.go`): the source calls
`create(name, dmuZFS, properties)` — the `createType` parameter it
receives is not the value it forwards. -/
def createDataset (name : String) (createType : Nat) (properties : Option PropMap) :
    CreateCall :=
  { name := name, createType := dmuZFS, properties := properties }

/-- Embedding of `CreateVolume` (`dataset.go`): the assignment
`properties["volsize"] = size` panics in Go when the caller passes a nil
map; otherwise the caller map gains the volsize entry and is forwarded
to `createDataset` with the `dmuZVOL` argument. -/
def CreateVolume (name : String) (size : Nat) (properties : Option PropMap) :
    GoVal CreateCall :=
  match properties with
  | none => GoVal.panicked
  | some m =>
      GoVal.ok (createDataset name dmuZVOL (some (mapAssign m "volsize" (PropVal.u64 size))))

/-- The everywhere-undefined property map. -/
def emptyPropMap : PropMap := fun _ => none

/-- A concrete caller map holding a stale volsize entry and an unrelated
entry. -/
def exPropMap : PropMap :=
  fun k => if k = "volsize" then some (PropVal.u64 7)
           else if k = "comp" then some (PropVal.str "lz4") else none

/-- C4: `CreateVolume` always issues the native create call with the
`dmuZFS` (filesystem) type discriminator, because `createDataset` ignores
its `createType` parameter; the volsize entry is injected as claimed, but
the type discriminator is not the volume one — shown concretely at
CreateVolume("tank/vol", 1024, empty map). -/
theorem c4_createVolume_issues_filesystem_type :
    (∀ (name : String) (createType : Nat) (properties : Option PropMap),
      (createDataset name createType properties).createType = dmuZFS) ∧
    CreateVolume "tank/vol" 1024 (some emptyPropMap) =
      GoVal.ok { name := "tank/vol", createType := dmuZFS
                 properties := some (mapAssign emptyPropMap "volsize" (PropVal.u64 1024)) } ∧
    mapAssign emptyPropMap "volsize" (PropVal.u64 1024) "volsize" =
      some (PropVal.u64 1024) ∧
    dmuZFS ≠ dmuZVOL :=
  ⟨fun name createType properties => rfl, rfl, rfl, by decide⟩

/-- C10: `CreateVolume` on a non-nil caller map forwards the caller map
updated so that "volsize" maps to the given size — overwriting any
caller-provided volsize entry — while every other key keeps the value the caller
had; a nil caller map panics. -/
theorem c10_createVolume_map_mutation :
    (∀ (name : String) (size : Nat) (m : PropMap) (k : String),
      CreateVolume name size (some m) =
        GoVal.ok (createDataset name dmuZVOL
          (some (mapAssign m "volsize" (PropVal.u64 size)))) ∧
      mapAssign m "volsize" (PropVal.u64 size) "volsize" = some (PropVal.u64 size) ∧
      (k ≠ "volsize" → mapAssign m "volsize" (PropVal.u64 size) k = m k)) ∧
    (∀ (name : String) (size : Nat), CreateVolume name size none = GoVal.panicked) := by
  refine ⟨fun name size m k => ⟨rfl, ?_, fun hk => ?_⟩, fun name size => rfl⟩
  · show (if "volsize" = "volsize" then some (PropVal.u64 size) else m "volsize") =
      some (PropVal.u64 size)
    rw [if_pos rfl]
  · show (if k = "volsize" then some (PropVal.u64 size) else m k) = m k
    rw [if_neg hk]

/-- Witness for C10 at the concrete caller map with a stale volsize entry:
the updated map holds the new volsize and the unrelated "comp" entry is
untouched. -/
theorem c10_createVolume_map_mutation_witness :
    CreateVolume "tank/vol" 1024 (some exPropMap) =
      GoVal.ok (createDataset "tank/vol" dmuZVOL
        (some (mapAssign exPropMap "volsize" (PropVal.u64 1024)))) ∧
    mapAssign exPropMap "volsize" (PropVal.u64 1024) "comp" = exPropMap "comp" :=
  ⟨(c10_createVolume_map_mutation.1 "tank/vol" 1024 exPropMap "comp").1,
   (c10_createVolume_map_mutation.1 "tank/vol" 1024 exPropMap "comp").2.2 (by decide)⟩

/-- Embedding of `MountArgs` (`providers/zfs/mount.go`). -/
structure MountArgs where
  Name : String
  Overlay : Bool
deriving DecidableEq, Repr

/-- The core operations the Mount handler can invoke: the dataset lookup
and the mount call on the fetched dataset. -/
inductive CoreOp
  | getDataset (name : String)
  | dsMount (name : String) (overlay : Bool)
deriving DecidableEq, Repr

/-- Abstract outcomes of the core operations consulted by the Mount
handler: the result of `zfs.GetDataset` per name, and the error (if any)
of `ds.Mount` per name and overlay flag. -/
structure MountEnv where
  getDataset : String → Except String Dataset
  mount : String → Bool → Option String

/-- Embedding of `ZFS.Mount` (`providers/zfs/mount.go`), parameterized by
the decode outcome of the request arguments and the core outcomes; the
result pairs the sequence of core operations invoked with the error the
handler returns (none on success).  A decode failure is returned as is; an
empty name is rejected with the missing-argument error before any core
operation; otherwise the dataset is fetched and, on success, mounted. -/
def zfsMountHandler (env : MountEnv) (decoded : Except String MountArgs) :
    List CoreOp × Option String :=
  match decoded with
  | Except.error e => ([], some e)
  | Except.ok args =>
    if args.Name = "" then ([], some "missing arg: name")
    else
      match env.getDataset args.Name with
      | Except.error e => ([CoreOp.getDataset args.Name], some e)
      | Except.ok ds =>
          ([CoreOp.getDataset args.Name, CoreOp.dsMount ds.Name args.Overlay],
           env.mount ds.Name args.Overlay)

/-- A concrete environment in which every lookup succeeds with the
normalization of the pool/fs record and every mount succeeds. -/
def exMountEnv : MountEnv :=
  { getDataset := fun _ => Except.ok (dsToDataset exFs)
    mount := fun _ _ => none }

/-- C8: a decoded request whose name is the empty string is rejected with
the missing-argument error and no core operation runs; conversely any run
in which a core operation was invoked decoded to arguments with a
non-empty name. -/
theorem c8_mount_missing_name :
    (∀ (env : MountEnv) (overlay : Bool),
      zfsMountHandler env (Except.ok { Name := "", Overlay := overlay }) =
        ([], some "missing arg: name")) ∧
    (∀ (env : MountEnv) (decoded : Except String MountArgs) (op : CoreOp),
      op ∈ (zfsMountHandler env decoded).1 →
      ∃ args, decoded = Except.ok args ∧ args.Name ≠ "") := by
  constructor
  · intro env overlay
    rfl
  · intro env decoded op hop
    cases decoded with
    | error e => simp [zfsMountHandler] at hop
    | ok args =>
      by_cases hname : args.Name = ""
      · simp [zfsMountHandler, hname] at hop
      · exact ⟨args, rfl, hname⟩

/-- Witness for C8: in the concrete environment, the empty-name request is
rejected without core calls, and a request named tank/data (whose handler
run does invoke the lookup) decodes to a non-empty name. -/
theorem c8_mount_missing_name_witness :
    zfsMountHandler exMountEnv (Except.ok { Name := "", Overlay := false }) =
      ([], some "missing arg: name") ∧
    ∃ args, (Except.ok { Name := "tank/data", Overlay := false } :
        Except String MountArgs) = Except.ok args ∧ args.Name ≠ "" :=
  ⟨c8_mount_missing_name.1 exMountEnv false,
   c8_mount_missing_name.2 exMountEnv
     (Except.ok { Name := "tank/data", Overlay := false })
     (CoreOp.getDataset "tank/data") (by decide)⟩

/-- Embedding of `DestroyOptions` (`dataset.go`). -/
structure DestroyOptions where
  Recursive : Bool
  RecursiveClones : Bool
  ForceUnmount : Bool
  Defer : Bool
deriving DecidableEq, Repr

/-- The native destroy invocation (`zfs/destroy.go`): the ioctl target name
and the command map {cmd: "zfs_destroy", version: 0, defer: flag} it
encodes (the field `deferFlag` carries the "defer" entry of the map). -/
structure DestroyCall where
  target : String
  cmd : String
  version : Nat
  deferFlag : Bool
deriving DecidableEq, Repr

/-- Embedding of `destroy` (`zfs/destroy.go`): builds the command record
sent for the named dataset with the given defer flag. -/
def destroyNative (name : String) (deferFlag : Bool) : DestroyCall :=
  { target := name, cmd := "zfs_destroy", version := 0, deferFlag := deferFlag }

/-- Abstract outcomes of the native layer consulted by `Dataset.Destroy`:
the names `Children(1)` yields for a dataset (self excluded, as the source
drops the first listing element), the error (if any) of that listing, the
keys of the clone-property map of the dataset fetched under a name, the
error (if any) of `GetDataset` on a clone name, and the error (if any) of
the native destroy of a name (encoding errors included).  Relationships
are keyed by name because the source re-fetches datasets by name rather
than holding graph pointers. -/
structure ZfsWorld where
  childrenOf : String → List String
  childrenErr : String → Option String
  clonesOf : String → List String
  getErr : String → Option String
  destroyErr : String → Option String

/-- Why a modeled destroy run stopped: the recursion bound of the model
was exhausted (`fuel`, not a program outcome — the Go recursion is
unbounded), or the error returned by the failing step. -/
inductive DestroyOutcome
  | fuel
  | fail (msg : String)
deriving DecidableEq, Repr

/-- The early-return sequencing of Go: if the first step produced an error,
return it with the calls made so far; otherwise continue from its
accumulated calls. -/
def andThenD (r : List DestroyCall × Option DestroyOutcome)
    (next : List DestroyCall → List DestroyCall × Option DestroyOutcome) :
    List DestroyCall × Option DestroyOutcome :=
  match r with
  | (a, some e) => (a, some e)
  | (a, none) => next a

/-- A Go for-loop with early return over a list of names: run the step on
each name in order, stopping at the first error. -/
def destroySeq (step : String → List DestroyCall → List DestroyCall × Option DestroyOutcome) :
    List String → List DestroyCall → List DestroyCall × Option DestroyOutcome
  | [], acc => (acc, none)
  | n :: rest, acc =>
    match step n acc with
    | (a, some e) => (a, some e)
    | (a, none) => destroySeq step rest a

/-- Embedding of `Dataset.Destroy` (`dataset.go`) over a `ZfsWorld`,
indexed by fuel since the Go recursion is unbounded.  The accumulator
collects the native destroy calls issued so far, in order.  Per the
source: when `Recursive`, the immediate children from `Children(1)` are
each destroyed recursively with the same options, aborting on the first
error (a failing `Children` listing aborts before any of them); then, when
`RecursiveClones`, each name in the clone-property map is fetched with
`GetDataset` and destroyed recursively, aborting on the first error;
finally the dataset itself is destroyed natively with the defer flag taken
from the options. -/
def destroyD (w : ZfsWorld) (opts : DestroyOptions) :
    Nat → String → List DestroyCall → List DestroyCall × Option DestroyOutcome
  | 0, _, acc => (acc, some DestroyOutcome.fuel)
  | fuel + 1, name, acc =>
    andThenD
      (if opts.Recursive then
        match w.childrenErr name with
        | some e => (acc, some (DestroyOutcome.fail e))
        | none => destroySeq (fun c a => destroyD w opts fuel c a) (w.childrenOf name) acc
       else (acc, none))
      (fun a1 =>
        andThenD
          (if opts.RecursiveClones then
            destroySeq
              (fun c a =>
                match w.getErr c with
                | some e => (a, some (DestroyOutcome.fail e))
                | none => destroyD w opts fuel c a)
              (w.clonesOf name) a1
           else (a1, none))
          (fun a2 =>
            match w.destroyErr name with
            | some e => (a2, some (DestroyOutcome.fail e))
            | none => (a2 ++ [destroyNative name opts.Defer], none)))

/-- The accumulated calls survive `andThenD`: whatever is a prefix of the
calls of the first step is a prefix of the calls of the whole sequencing, provided
the continuation also only appends. -/
theorem andThenD_keeps_acc (acc : List DestroyCall)
    (r : List DestroyCall × Option DestroyOutcome)
    (next : List DestroyCall → List DestroyCall × Option DestroyOutcome)
    (h1 : acc <+: r.1) (h2 : ∀ a, a <+: (next a).1) :
    acc <+: (andThenD r next).1 := by
  rcases r with ⟨a, e⟩
  cases e with
  | none => exact h1.trans (h2 a)
  | some e => exact h1

/-- The accumulated calls survive `destroySeq` when they survive each
step. -/
theorem destroySeq_keeps_acc
    (step : String → List DestroyCall → List DestroyCall × Option DestroyOutcome)
    (hstep : ∀ n a, a <+: (step n a).1) :
    ∀ (ns : List String) (acc : List DestroyCall), acc <+: (destroySeq step ns acc).1 := by
  intro ns
  induction ns with
  | nil => exact fun acc => List.prefix_refl _
  | cons n rest ih =>
    intro acc
    have h := hstep n acc
    rw [destroySeq]
    rcases hs : step n acc with ⟨a, e⟩
    rw [hs] at h
    cases e with
    | none =>
      show acc <+: (destroySeq step rest a).1
      exact h.trans (ih a)
    | some e => exact h

/-- The destroy run only appends to the accumulated calls: every call
already issued when it starts is still recorded (as a prefix) in whatever
it returns, error or not. -/
theorem destroyD_keeps_acc (w : ZfsWorld) (opts : DestroyOptions) :
    ∀ (fuel : Nat) (name : String) (acc : List DestroyCall),
      acc <+: (destroyD w opts fuel name acc).1 := by
  intro fuel
  induction fuel with
  | zero => exact fun name acc => List.prefix_refl _
  | succ fuel ih =>
    intro name acc
    rw [destroyD]
    apply andThenD_keeps_acc
    · cases hb : opts.Recursive with
      | false => exact List.prefix_refl _
      | true =>
        rw [if_pos rfl]
        cases hc : w.childrenErr name with
        | none => exact destroySeq_keeps_acc _ (fun n a => ih n a) _ _
        | some e => exact List.prefix_refl _
    · intro a1
      apply andThenD_keeps_acc
      · cases hb : opts.RecursiveClones with
        | false => exact List.prefix_refl _
        | true =>
          rw [if_pos rfl]
          apply destroySeq_keeps_acc
          intro n a
          cases hg : w.getErr n with
          | none => exact ih n a
          | some e => exact List.prefix_refl _
      · intro a2
        cases hd : w.destroyErr name with
        | none => exact ⟨[destroyNative name opts.Defer], rfl⟩
        | some e => exact List.prefix_refl _

/-- Destroy options with recursive and recursive_clones set and defer
unset. -/
def optsRC : DestroyOptions :=
  { Recursive := true, RecursiveClones := true, ForceUnmount := false, Defer := false }

/-- The scenario of the spec: pool/a has immediate child pool/a/b and
clone pool/c; every native call succeeds. -/
def specWorld : ZfsWorld :=
  { childrenOf := fun n => if n = "pool/a" then ["pool/a/b"] else []
    childrenErr := fun _ => none
    clonesOf := fun n => if n = "pool/a" then ["pool/c"] else []
    getErr := fun _ => none
    destroyErr := fun _ => none }

/-- The spec scenario where the native destroy of the child pool/a/b
fails. -/
def specWorldChildFails : ZfsWorld :=
  { specWorld with
    destroyErr := fun n => if n = "pool/a/b" then some "destroy failed: pool/a/b" else none }

/-- The spec scenario where fetching the clone pool/c fails. -/
def specWorldCloneGetFails : ZfsWorld :=
  { specWorld with
    getErr := fun n => if n = "pool/c" then some "dataset not found: pool/c" else none }

/-- A scenario with two children pool/a/b and pool/a/c of which the second
fails to destroy, after the first was already destroyed. -/
def specWorldPartial : ZfsWorld :=
  { childrenOf := fun n => if n = "pool/a" then ["pool/a/b", "pool/a/c"] else []
    childrenErr := fun _ => none
    clonesOf := fun n => if n = "pool/a" then ["pool/c"] else []
    getErr := fun _ => none
    destroyErr := fun n => if n = "pool/a/c" then some "EBUSY" else none }

/-- C1: with recursive and recursive_clones set, destroy issues the native
destroy of each immediate child first (depth-first), then of each clone
from the clone-property map, then of the dataset itself, carrying the
defer flag of the options; any failing step returns that failure
immediately, so the own destroy of the dataset (and every later step) is not
issued while the calls already made stay made — generally, the
accumulated calls are never retracted, and concretely on the spec
scenario: the success run destroys pool/a/b, then pool/c, then pool/a; a
failure at pool/a/b leaves pool/c and pool/a undestroyed and returns that
failure; a failure fetching pool/c leaves pool/a undestroyed with
pool/a/b already destroyed; a failure at a second child keeps the first
child destroyed; and with defer set every issued call carries the defer
flag. -/
theorem c1_destroy_recursive_order :
    (∀ (w : ZfsWorld) (opts : DestroyOptions) (fuel : Nat) (name : String)
        (acc : List DestroyCall), acc <+: (destroyD w opts fuel name acc).1) ∧
    destroyD specWorld optsRC 4 "pool/a" [] =
      ([destroyNative "pool/a/b" false, destroyNative "pool/c" false,
        destroyNative "pool/a" false], none) ∧
    destroyD specWorldChildFails optsRC 4 "pool/a" [] =
      ([], some (DestroyOutcome.fail "destroy failed: pool/a/b")) ∧
    destroyD specWorldCloneGetFails optsRC 4 "pool/a" [] =
      ([destroyNative "pool/a/b" false],
        some (DestroyOutcome.fail "dataset not found: pool/c")) ∧
    destroyD specWorldPartial optsRC 4 "pool/a" [] =
      ([destroyNative "pool/a/b" false], some (DestroyOutcome.fail "EBUSY")) ∧
    destroyD specWorld { optsRC with Defer := true } 4 "pool/a" [] =
      ([destroyNative "pool/a/b" true, destroyNative "pool/c" true,
        destroyNative "pool/a" true], none) :=
  ⟨destroyD_keeps_acc, rfl, rfl, rfl, rfl, rfl⟩

end Cerana
